import Mathlib

/-!
# Verification of the LINE counseling-bot conversation relay (src/main.py)

Shallow embedding of the stateful core of `src/main.py`:

* the manual webhook signature check of `callback` (HMAC-SHA256 of the raw
  body keyed by the channel secret, base64-encoded, compared with the
  `X-Line-Signature` header);
* the per-user session dictionary `user_sessions` and the event handler
  `handle_message` (daily reset / welcome branch, quota branch, context
  assembly, Gemini call with response-shape normalization and the exception
  fallback, history append and counter increment).

Dates are abstracted to `Nat` (only equality of calendar dates is ever used
by the source).  Bytes are `Nat` values below 256 in `List Nat`.  The Gemini
call is a parameter of the handler: either it raises (`GeminiOutcome.error`)
or it returns a response object whose observable shape is exactly what lines
268-274 of the source inspect (a truthy object with a `.text` attribute, a
list whose elements may or may not carry `.text`, or something else).
-/

namespace LineBot

/-! ## Constants of src/main.py -/

/-- `MAX_GEMINI_REQUESTS_PER_DAY = 20` (src/main.py line 86). -/
def MAX_GEMINI_REQUESTS_PER_DAY : Nat := 20

/-- `MAX_CONTEXT_TURNS = 6` (src/main.py line 124). -/
def MAX_CONTEXT_TURNS : Nat := 6

/-- `INITIAL_MESSAGE` (src/main.py line 113), the fixed welcome text. -/
def INITIAL_MESSAGE : String :=
  "「こころコンパス」へようこそ。\nどんな小さなことでも構いませんので、今感じていることや、お話ししたいことを教えていただけますか？私が心を込めてお聴きします。"

/-- `GEMINI_LIMIT_MESSAGE` (src/main.py lines 115-122), the fixed
quota-exceeded text. -/
def GEMINI_LIMIT_MESSAGE : String :=
  "申し訳ありません、本日のAIカウンセリングのご利用回数の上限に達しました。\n明日またお話できますので、その時まで少し心の休憩をされてくださいね。\n\nもし緊急の場合は、以下のような公的な相談窓口もご利用いただけます。\n・こころの健康相談統一ダイヤル: 0570-064-556\n・いのちの電話: 0120-783-556\n\nまた、AIによるセルフヘルプコンテンツ（例：リラックス法、簡単な思考整理シートなど）は引き続きご利用いただけます。\n"

/-- `COUNSELING_SYSTEM_PROMPT` (src/main.py lines 89-111), verbatim. -/
def COUNSELING_SYSTEM_PROMPT : String :=
  "\nあなたは「こころコンパス」という名前のAIカウンセラーです。\nユーザーの心に寄り添い、羅針盤のように道を照らす存在として会話してください。\nあなたの役割は、ユーザーが自身の悩みや感情を整理し、前向きな一歩を踏み出すお手伝いをすることです。\n\n以下の心理療法・アプローチを統合して用いてください。\n1.  **来談者中心療法 (ロジャーズベース):** 共感的理解、無条件の肯定的関心、自己一致（誠実さ）を態度で示し、ユーザーの語りを尊重してください。傾聴し、オウム返しや言い換えを効果的に使い、ユーザーの感情や考えを正確に理解しようと努めてください。\n2.  **認知行動療法 (CBT):** ユーザーの自動思考や認知の歪みに気づきを促し、より適応的な思考パターンを探索する質問を投げかけてください。思考記録（コラム法）のような構造的なアプローチも自然に導入してください。\n3.  **アクセプタンス＆コミットメント・セラピー (ACT):** 不快な思考や感情を変えようとするのではなく、それらを受け入れ（アクセプタンス）、思考と自分を切り離し（脱フュージョン）、自分の価値観に基づいた行動（コミットした行動）を促す質問や示唆を与えてください。マインドフルネスの要素も取り入れてください。\n4.  **解決志向ブリーフセラピー (SFBT): 環境:** 問題の原因深掘りよりも、解決に焦点を当ててください。「もし問題が解決したら何が変わるか？」「これまでうまくいったことは何か？」といった質問（ミラクルクエスチョン、例外の質問）を使い、ユーザーの強みやリソースを引き出してください。\n5.  **ポジティブ心理学・レジリエンス:** ユーザーの強み、感謝、希望、幸福感といったポジティブな側面にも焦点を当て、それらを育むような質問やフィードバックを適宜行ってください。困難を乗り越える力（レジリエンス）を高める視点も提供してください。\n\n**会話のトーンとスタイル:**\n* 常に丁寧で、穏やか、そして温かい言葉遣いを心がけてください。\n* ユーザーの言葉を批判せず、受容的な態度を示してください。\n* 自然な会話のキャッチボールを意識し、一方的な情報提供にならないようにしてください。\n* 専門用語は避け、分かりやすい言葉で説明してください。\n* 返答は長すぎず、ユーザーが読みやすい適切な長さに調整してください。\n* **返答の最後に、ユーザーが追加で話したくなるような、文脈に合った自然な問いかけや、次の発言を促す言葉を必ず含めてください。** 例：「〜と感じられたのですね。もう少し詳しくお聞かせいただけますか？」「〜について、他に何か思い当たることはありますか？」「今はどのようなお気持ちでしょうか？」など、その時の会話の流れに合わせた多様な問いかけをお願いします。\n* 安全を最優先し、緊急性の高い内容（自殺念慮など）を察知した場合は、専門機関への相談を促す旨を伝えてください。（ただし、AIには限界があることを理解し、直接的な医療行為や診断は行わないでください。）\n\n**Gemini APIの無料枠を考慮し、無駄なトークン消費を避けるため、簡潔かつ的確な応答を心がけてください。また、同じような質問の繰り返しは避け、会話の進展を促してください。**\n"

/-- The fixed acknowledgment entry appended right after the system prompt
(src/main.py line 249). -/
def GEMINI_ACK_MESSAGE : String :=
  "はい、承知いたしました。こころコンパスとして、心を込めてお話をお伺いします。"

/-- The fallback text set in the `except` branch of the Gemini call
(src/main.py line 296): the fixed apology for a raised error. -/
def GEMINI_ERROR_MESSAGE : String :=
  "Geminiとの通信中にエラーが発生しました。時間を置いてお試しください。"

/-- The text set when the Gemini response carries no extractable text
(src/main.py line 274). -/
def GEMINI_FORMAT_MESSAGE : String :=
  "Geminiからの応答形式が予期せぬものでした。"

/-! ## Data model -/

/-- One user's entry of the `user_sessions` dictionary
(src/main.py lines 207-211): conversation history as (role, text) pairs,
today's request count, and the date of the last request. -/
structure Session where
  history : List (String × String)
  request_count : Nat
  last_request_date : Nat
deriving Repr, DecidableEq

/-- The session written by the initialization/reset branch
(src/main.py lines 207-211). -/
def fresh_session (current_date : Nat) : Session :=
  { history := [], request_count := 0, last_request_date := current_date }

/-- The observable shape of one element of a Gemini response: does it carry a
`.text` attribute, and if so which text (src/main.py lines 268-271). -/
inductive GeminiItem where
  | withText (t : String)
  | noText
deriving Repr, DecidableEq

/-- The observable shape of `convo.send_message`'s result, as inspected by
src/main.py lines 268-274: a truthy non-list object (with or without `.text`),
a list of items, or a falsy value. -/
inductive GeminiResponse where
  | obj (item : GeminiItem)
  | listOf (items : List GeminiItem)
  | falsy
deriving Repr, DecidableEq

/-- Outcome of the Gemini interaction of src/main.py lines 263-264: either
`start_chat`/`send_message` raises, or it returns a response object. -/
inductive GeminiOutcome where
  | ok (resp : GeminiResponse)
  | error
deriving Repr, DecidableEq

/-- The text-extraction cascade of src/main.py lines 268-274:
`gemini_response.text` when the (truthy) response has a `.text` attribute,
else the first element's `.text` when the response is a nonempty list whose
first element has one, else no text is extractable. -/
def extractText : GeminiResponse → Option String
  | .obj (.withText t) => some t
  | .obj .noText => none
  | .listOf items =>
      match items with
      | .withText t :: _ => some t
      | _ => none
  | .falsy => none

/-! ## Context assembly (src/main.py lines 248-256) -/

/-- `chat_history_for_gemini`: the fixed two-entry priming pair, then
`history[start_index:]` with `start_index = max(0, len(history) -
max_turn_pairs * 2)`.  Python's `max(0, ...)` is `Nat` truncated
subtraction. -/
def build_context (history : List (String × String)) (max_turn_pairs : Nat) :
    List (String × String) :=
  [("user", COUNSELING_SYSTEM_PROMPT), ("model", GEMINI_ACK_MESSAGE)] ++
    history.drop (history.length - max_turn_pairs * 2)

/-! ## The event handler (src/main.py lines 191-312) -/

/-- Everything observable about one `handle_message` run for one user:
the stored session afterwards, the text dispatched through
`line_bot_api.reply_message`, whether the Gemini API was called, whether the
initialization/reset branch ran, and the context passed to `start_chat`
(when a call was made). -/
structure StepResult where
  session : Session
  reply : String
  ai_called : Bool
  did_reset : Bool
  ai_context : Option (List (String × String))
deriving Repr, DecidableEq

/-- `check_quota` of the spec, as the source implements it inline
(src/main.py line 230 negated): the quota passes iff
`request_count < MAX_GEMINI_REQUESTS_PER_DAY`. -/
def check_quota (s : Session) (limit : Nat) : Bool :=
  s.request_count < limit

/-- Shallow embedding of `handle_message` (src/main.py lines 191-312) for a
single user: `stored` is `user_sessions.get(user_id)`, `current_date` is
`datetime.date.today()`, and `g` is the behavior of the Gemini call on this
event.  Branches in source order: initialization/reset (lines 204-227),
quota (lines 230-245), Gemini call with normalization, history append and
count increment (lines 248-296). -/
def handle_message (stored : Option Session) (current_date : Nat)
    (user_message : String) (g : GeminiOutcome) : StepResult :=
  match stored with
  | none =>
      { session := fresh_session current_date, reply := INITIAL_MESSAGE,
        ai_called := false, did_reset := true, ai_context := none }
  | some s =>
      if s.last_request_date ≠ current_date then
        { session := fresh_session current_date, reply := INITIAL_MESSAGE,
          ai_called := false, did_reset := true, ai_context := none }
      else if s.request_count ≥ MAX_GEMINI_REQUESTS_PER_DAY then
        { session := s, reply := GEMINI_LIMIT_MESSAGE,
          ai_called := false, did_reset := false, ai_context := none }
      else
        let ctx := build_context s.history MAX_CONTEXT_TURNS
        match g with
        | .error =>
            { session := s, reply := GEMINI_ERROR_MESSAGE,
              ai_called := true, did_reset := false, ai_context := some ctx }
        | .ok resp =>
            let response_text :=
              match extractText resp with
              | some t => t
              | none => GEMINI_FORMAT_MESSAGE
            { session :=
                { history := s.history ++
                    [("user", user_message), ("model", response_text)],
                  request_count := s.request_count + 1,
                  last_request_date := current_date },
              reply := response_text, ai_called := true, did_reset := false,
              ai_context := some ctx }

/-! ## Runs of successful turns (src/main.py lines 248-296 iterated) -/

/-- Run one successful AI turn per (message, reply) pair: each event is
handled on date `d` with a Gemini call returning a text-bearing response. -/
def run_success_turns (d : Nat) : List (String × String) → Session → Session
  | [], s => s
  | (msg, reply) :: rest, s =>
      run_success_turns d rest
        (handle_message (some s) d msg (.ok (.obj (.withText reply)))).session

/-! ## The history alternation invariant -/

/-- Induction two list elements at a time. -/
def twoStepInd {α : Type} {P : List α → Prop} (h0 : P []) (h1 : ∀ a, P [a])
    (h2 : ∀ a b l, P l → P (a :: b :: l)) : ∀ l, P l
  | [] => h0
  | [a] => h1 a
  | a :: b :: l => h2 a b l (twoStepInd h0 h1 h2 l)

/-- A history is alternating when it is a sequence of
("user", _), ("model", _) pairs in that order. -/
def alternating : List (String × String) → Bool
  | [] => true
  | [_] => false
  | (r1, _) :: (r2, _) :: rest => r1 == "user" && r2 == "model" && alternating rest

/-! ## The signature check of `callback` (src/main.py lines 137-163)

The source computes `base64.b64encode(hmac.new(secret, body,
hashlib.sha256).digest())` and compares it to the `X-Line-Signature` header
with `!=`, calling `abort(400)` on a mismatch and on a missing header.
HMAC-SHA256 (FIPS 198 / FIPS 180-4) and standard base64 (RFC 4648), the
functions the source delegates to `hmac`, `hashlib` and `base64`, are
embedded executably below over byte lists (`Nat` values below 256). -/

/-- Truncation to a 32-bit word. -/
def w32 (n : Nat) : Nat := n % 4294967296

/-- Right rotation of a 32-bit word. -/
def rotr32 (n x : Nat) : Nat := w32 ((x >>> n) ||| (x <<< (32 - n)))

/-- SHA-256 choice function (bitwise complement is xor with `2^32 - 1`). -/
def sha_ch (x y z : Nat) : Nat := (x &&& y) ^^^ ((x ^^^ 4294967295) &&& z)

/-- SHA-256 majority function. -/
def sha_maj (x y z : Nat) : Nat := (x &&& y) ^^^ (x &&& z) ^^^ (y &&& z)

/-- SHA-256 big sigma 0. -/
def bsig0 (x : Nat) : Nat := rotr32 2 x ^^^ rotr32 13 x ^^^ rotr32 22 x

/-- SHA-256 big sigma 1. -/
def bsig1 (x : Nat) : Nat := rotr32 6 x ^^^ rotr32 11 x ^^^ rotr32 25 x

/-- SHA-256 small sigma 0. -/
def ssig0 (x : Nat) : Nat := rotr32 7 x ^^^ rotr32 18 x ^^^ (x >>> 3)

/-- SHA-256 small sigma 1. -/
def ssig1 (x : Nat) : Nat := rotr32 17 x ^^^ rotr32 19 x ^^^ (x >>> 10)

/-- The 64 SHA-256 round constants. -/
def sha_K : List Nat :=
  [1116352408, 1899447441, 3049323471, 3921009573, 961987163, 1508970993,
   2453635748, 2870763221, 3624381080, 310598401, 607225278, 1426881987,
   1925078388, 2162078206, 2614888103, 3248222580, 3835390401, 4022224774,
   264347078, 604807628, 770255983, 1249150122, 1555081692, 1996064986,
   2554220882, 2821834349, 2952996808, 3210313671, 3336571891, 3584528711,
   113926993, 338241895, 666307205, 773529912, 1294757372, 1396182291,
   1695183700, 1986661051, 2177026350, 2456956037, 2730485921, 2820302411,
   3259730800, 3345764771, 3516065817, 3600352804, 4094571909, 275423344,
   430227734, 506948616, 659060556, 883997877, 958139571, 1322822218,
   1537002063, 1747873779, 1955562222, 2024104815, 2227730452, 2361852424,
   2428436474, 2756734187, 3204031479, 3329325298]

/-- The SHA-256 initial hash state. -/
def sha_H0 : List Nat :=
  [1779033703, 3144134277, 1013904242, 2773480762,
   1359893119, 2600822924, 528734635, 1541459225]

/-- `n` big-endian bytes of `v`. -/
def bigEndianBytes (n v : Nat) : List Nat :=
  (List.range n).map (fun i => (v >>> (8 * (n - 1 - i))) % 256)

/-- SHA-256 message padding: a 128 byte, zeros to 56 mod 64, and the
64-bit big-endian bit length. -/
def sha256pad (msg : List Nat) : List Nat :=
  let L := msg.length
  let zeros := (120 - (L + 1) % 64) % 64
  msg ++ [128] ++ List.replicate zeros 0 ++ bigEndianBytes 8 (L * 8)

/-- Group bytes into big-endian 32-bit words. -/
def bytesToWords : List Nat → List Nat
  | b0 :: b1 :: b2 :: b3 :: rest =>
      (b0 * 16777216 + b1 * 65536 + b2 * 256 + b3) :: bytesToWords rest
  | _ => []

/-- The four big-endian bytes of a 32-bit word. -/
def wordToBytes (w : Nat) : List Nat :=
  [(w >>> 24) % 256, (w >>> 16) % 256, (w >>> 8) % 256, w % 256]

/-- Extend the 16-word message schedule by `k` further words; the word list
is kept newest-first. -/
def scheduleRev : Nat → List Nat → List Nat
  | 0, rws => rws
  | k + 1, rws =>
      let next := w32 (ssig1 (rws.getD 1 0) + rws.getD 6 0 +
        ssig0 (rws.getD 14 0) + rws.getD 15 0)
      scheduleRev k (next :: rws)

/-- One SHA-256 round on the working state `[a, b, c, d, e, f, g, h]` with a
(schedule word, round constant) pair. -/
def compressStep (st : List Nat) (wk : Nat × Nat) : List Nat :=
  match st with
  | [a, b, c, d, e, f, g8, h8] =>
      let t1 := w32 (h8 + bsig1 e + sha_ch e f g8 + wk.2 + wk.1)
      let t2 := w32 (bsig0 a + sha_maj a b c)
      [w32 (t1 + t2), a, b, c, w32 (d + t1), e, f, g8]
  | _ => st

/-- Process one 64-byte block into the running hash state. -/
def processBlock (H : List Nat) (block : List Nat) : List Nat :=
  let ws := (scheduleRev 48 (bytesToWords block).reverse).reverse
  let st := (ws.zip sha_K).foldl compressStep H
  (H.zip st).map (fun p => w32 (p.1 + p.2))

/-- Split into 64-byte chunks (fuel-indexed; called with the list length). -/
def chunksAux : Nat → List Nat → List (List Nat)
  | 0, _ => []
  | _ + 1, [] => []
  | fuel + 1, l => l.take 64 :: chunksAux fuel (l.drop 64)

/-- SHA-256 of a byte list (FIPS 180-4), as `hashlib.sha256`. -/
def sha256 (msg : List Nat) : List Nat :=
  let padded := sha256pad msg
  let blocks := chunksAux padded.length padded
  ((blocks.foldl processBlock sha_H0).map wordToBytes).flatten

/-- HMAC-SHA256 (FIPS 198, block size 64), as `hmac.new(key, msg,
hashlib.sha256).digest()`. -/
def hmacSHA256 (key msg : List Nat) : List Nat :=
  let k := if key.length > 64 then sha256 key else key
  let k0 := k ++ List.replicate (64 - k.length) 0
  let ipad := k0.map (fun b => b ^^^ 54)
  let opad := k0.map (fun b => b ^^^ 92)
  sha256 (opad ++ sha256 (ipad ++ msg))

/-- The standard base64 alphabet (RFC 4648). -/
def b64Chars : List Char :=
  "ABCDEFGHIJKLMNOPQRSTUVWXYZabcdefghijklmnopqrstuvwxyz0123456789+/".toList

/-- The base64 character of a 6-bit value. -/
def b64Char (n : Nat) : Char := b64Chars.getD n '='

/-- Base64-encode bytes three at a time, padding with `=`. -/
def b64Aux : List Nat → List Char
  | b0 :: b1 :: b2 :: rest =>
      let n := b0 * 65536 + b1 * 256 + b2
      b64Char ((n >>> 18) % 64) :: b64Char ((n >>> 12) % 64) ::
        b64Char ((n >>> 6) % 64) :: b64Char (n % 64) :: b64Aux rest
  | [b0, b1] =>
      let n := (b0 * 256 + b1) * 4
      [b64Char ((n >>> 12) % 64), b64Char ((n >>> 6) % 64), b64Char (n % 64), '=']
  | [b0] =>
      let n := b0 * 16
      [b64Char ((n >>> 6) % 64), b64Char (n % 64), '=', '=']
  | [] => []

/-- `base64.b64encode(..).decode('utf-8')` over a byte list. -/
def base64Encode (bs : List Nat) : String := String.mk (b64Aux bs)

/-- The manual signature check of `callback` (src/main.py lines 149-163):
the request proceeds exactly when the received `X-Line-Signature` equals the
base64-encoded HMAC-SHA256 digest of the request body keyed by the channel
secret; `false` stands for `abort(400)` (a plain return, not an exception —
the comparison itself cannot raise). -/
def verify (secret body : List Nat) (claimed_signature : String) : Bool :=
  base64Encode (hmacSHA256 secret body) == claimed_signature

/-- The HTTP status `callback` produces up to and including the manual
signature check (src/main.py lines 137-163): a missing header and a mismatch
both `abort(400)`; on a match processing continues toward the 200 reply. -/
def callback_status (secret body : List Nat) (signature : Option String) : Nat :=
  match signature with
  | none => 400
  | some sig => if verify secret body sig then 200 else 400

/-! ## Helper lemmas about `handle_message` -/

/-- After any event, the stored session's date is the event's date: the fresh
branch and the success branch write it, and the quota and error branches are
only reachable when it already held. -/
theorem session_date_after (stored : Option Session) (d : Nat) (m : String)
    (g : GeminiOutcome) :
    (handle_message stored d m g).session.last_request_date = d := by
  unfold handle_message
  cases stored with
  | none => rfl
  | some s =>
      by_cases hd : s.last_request_date ≠ d
      · simp [hd, fresh_session]
      · push_neg at hd
        by_cases hq : s.request_count ≥ MAX_GEMINI_REQUESTS_PER_DAY
        · simp [hd, hq]
        · cases g <;> simp [hd, hq]

/-- A same-date event never takes the initialization/reset branch, and never
decreases the request count. -/
theorem no_reset_same_date (s : Session) (d : Nat) (m : String)
    (g : GeminiOutcome) (hd : s.last_request_date = d) :
    (handle_message (some s) d m g).did_reset = false ∧
    s.request_count ≤ (handle_message (some s) d m g).session.request_count := by
  unfold handle_message
  by_cases hq : s.request_count ≥ MAX_GEMINI_REQUESTS_PER_DAY
  · simp [hd, hq]
  · cases g <;> simp [hd, hq]

/-! ## Claim theorems -/

/-- C2: with no stored session, or a stored session whose date differs from
the event's, `handle_message` dispatches the fixed welcome message, makes no
AI call, and stores a fresh session with `request_count = 0` and empty
history. -/
theorem fresh_event_welcome (stored : Option Session) (current_date : Nat)
    (user_message : String) (g : GeminiOutcome)
    (h : stored = none ∨
        ∃ s, stored = some s ∧ s.last_request_date ≠ current_date) :
    handle_message stored current_date user_message g =
      { session := { history := [], request_count := 0,
                     last_request_date := current_date },
        reply := INITIAL_MESSAGE, ai_called := false, did_reset := true,
        ai_context := none } := by
  rcases h with h | ⟨s, hs, hd⟩
  · subst h; rfl
  · subst hs
    simp [handle_message, hd, fresh_session]

/-- Witness for C2 at a concrete stored session whose date differs. -/
theorem fresh_event_welcome_witness :
    handle_message
        (some { history := [("user", "a"), ("model", "b")], request_count := 3,
                last_request_date := 4 }) 5 "m" .error =
      { session := { history := [], request_count := 0, last_request_date := 5 },
        reply := INITIAL_MESSAGE, ai_called := false, did_reset := true,
        ai_context := none } :=
  fresh_event_welcome _ 5 "m" .error (Or.inr ⟨_, rfl, by decide⟩)

/-- C3: the quota check passes exactly when `request_count` is below the
limit; the AI is called on a same-date event exactly when it passes; and at
the limit the event dispatches the fixed quota-exceeded message, makes no AI
call, and leaves the session unchanged. -/
theorem quota_enforcement (s : Session) (current_date : Nat)
    (user_message : String) (g : GeminiOutcome)
    (hd : s.last_request_date = current_date) :
    (check_quota s MAX_GEMINI_REQUESTS_PER_DAY = true ↔
        s.request_count < MAX_GEMINI_REQUESTS_PER_DAY) ∧
    ((handle_message (some s) current_date user_message g).ai_called = true ↔
        s.request_count < MAX_GEMINI_REQUESTS_PER_DAY) ∧
    (s.request_count = MAX_GEMINI_REQUESTS_PER_DAY →
        handle_message (some s) current_date user_message g =
          { session := s, reply := GEMINI_LIMIT_MESSAGE, ai_called := false,
            did_reset := false, ai_context := none }) := by
  refine ⟨by simp [check_quota], ?_, ?_⟩
  · unfold handle_message
    by_cases hq : s.request_count ≥ MAX_GEMINI_REQUESTS_PER_DAY
    · simp [hd, hq]
    · cases g <;> simp [hd, hq]
      all_goals omega
  · intro h20
    unfold handle_message
    simp [hd, h20]

/-- Witness for C3 at a concrete session with `request_count = 20`. -/
theorem quota_enforcement_witness :
    handle_message
        (some { history := [], request_count := 20, last_request_date := 7 })
        7 "m" .error =
      { session := { history := [], request_count := 20, last_request_date := 7 },
        reply := GEMINI_LIMIT_MESSAGE, ai_called := false, did_reset := false,
        ai_context := none } :=
  (quota_enforcement _ 7 "m" .error rfl).2.2 rfl

/-- C4: an event whose date differs from the stored one resets the session
(count 0, history cleared) before any further processing and is the fresh
welcome case; a same-date event never resets and never decreases the count;
after any event the stored date equals the event's date, so a second event on
the same date never resets again. -/
theorem daily_reset (s : Session) (current_date : Nat)
    (user_message msg2 : String) (g g2 : GeminiOutcome) :
    (s.last_request_date ≠ current_date →
        handle_message (some s) current_date user_message g =
          { session := { history := [], request_count := 0,
                         last_request_date := current_date },
            reply := INITIAL_MESSAGE, ai_called := false, did_reset := true,
            ai_context := none }) ∧
    (s.last_request_date = current_date →
        (handle_message (some s) current_date user_message g).did_reset = false ∧
        s.request_count ≤
          (handle_message (some s) current_date user_message g).session.request_count) ∧
    (handle_message (some s) current_date user_message g).session.last_request_date =
        current_date ∧
    (handle_message
        (some (handle_message (some s) current_date user_message g).session)
        current_date msg2 g2).did_reset = false := by
  refine ⟨?_, ?_, session_date_after _ _ _ _, ?_⟩
  · intro hd
    exact fresh_event_welcome _ _ _ _ (Or.inr ⟨s, rfl, hd⟩)
  · intro hd
    exact no_reset_same_date s current_date user_message g hd
  · exact (no_reset_same_date _ _ _ _ (session_date_after _ _ _ _)).1

/-- Witness for C4 at a concrete session dated 4, event dated 5. -/
theorem daily_reset_witness :
    handle_message
        (some { history := [("user", "a"), ("model", "b")], request_count := 9,
                last_request_date := 4 }) 5 "m" (.ok .falsy) =
      { session := { history := [], request_count := 0, last_request_date := 5 },
        reply := INITIAL_MESSAGE, ai_called := false, did_reset := true,
        ai_context := none } :=
  (daily_reset ⟨[("user", "a"), ("model", "b")], 9, 4⟩ 5 "m" "m2"
    (.ok .falsy) .error).1 (by decide)

/-- C5: the assembled context starts with the fixed priming pair, continues
with exactly the last `max_turn_pairs * 2` entries of the history (all of it
when shorter) in their original order, and never exceeds
`2 * max_turn_pairs + 2` entries. -/
theorem context_assembly (history : List (String × String))
    (max_turn_pairs : Nat) :
    (build_context history max_turn_pairs).take 2 =
        [("user", COUNSELING_SYSTEM_PROMPT), ("model", GEMINI_ACK_MESSAGE)] ∧
    (build_context history max_turn_pairs).drop 2 =
        history.drop (history.length - max_turn_pairs * 2) ∧
    ((build_context history max_turn_pairs).drop 2).length =
        min (max_turn_pairs * 2) history.length ∧
    (build_context history max_turn_pairs).drop 2 <:+ history ∧
    (build_context history max_turn_pairs).length ≤ 2 * max_turn_pairs + 2 := by
  refine ⟨rfl, rfl, ?_, ?_, ?_⟩
  · simp [build_context]; omega
  · simpa [build_context] using List.drop_suffix _ history
  · simp [build_context]; omega

/-- C6: when the Gemini call raises, the dispatched reply is the fixed
apology text and the stored session is exactly the one from before the
event (history, count and date all unchanged). -/
theorem ai_failure_atomicity (s : Session) (current_date : Nat)
    (user_message : String)
    (hd : s.last_request_date = current_date)
    (hq : s.request_count < MAX_GEMINI_REQUESTS_PER_DAY) :
    handle_message (some s) current_date user_message .error =
      { session := s, reply := GEMINI_ERROR_MESSAGE, ai_called := true,
        did_reset := false,
        ai_context := some (build_context s.history MAX_CONTEXT_TURNS) } := by
  unfold handle_message
  simp [hd, Nat.not_le.mpr hq]

/-- Witness for C6: a concrete session survives a raised AI error intact. -/
theorem ai_failure_atomicity_witness :
    handle_message
        (some { history := [("user", "m1"), ("model", "r1")], request_count := 1,
                last_request_date := 3 }) 3 "m2" .error =
      { session := { history := [("user", "m1"), ("model", "r1")],
                     request_count := 1, last_request_date := 3 },
        reply := GEMINI_ERROR_MESSAGE, ai_called := true, did_reset := false,
        ai_context := some (build_context [("user", "m1"), ("model", "r1")]
          MAX_CONTEXT_TURNS) } :=
  ai_failure_atomicity _ 3 "m2" rfl (by decide)

/-- C7 counterexample: on a same-day event with quota available, a Gemini
response carrying no extractable text is NOT handled like a transport
failure: the dispatched reply is the distinct unexpected-format text, not the
apology of the `except` branch, and the turn IS recorded — history grows by
two entries and `request_count` becomes 1. -/
theorem unparseable_response_mutates_cex :
    (handle_message (some ⟨[], 0, 5⟩) 5 "m" (.ok (.obj .noText))).reply ≠
        GEMINI_ERROR_MESSAGE ∧
    (handle_message (some ⟨[], 0, 5⟩) 5 "m" (.ok (.obj .noText))).reply =
        GEMINI_FORMAT_MESSAGE ∧
    (handle_message (some ⟨[], 0, 5⟩) 5 "m"
        (.ok (.obj .noText))).session.request_count = 1 ∧
    (handle_message (some ⟨[], 0, 5⟩) 5 "m"
        (.ok (.obj .noText))).session.history.length = 2 := by
  refine ⟨?_, rfl, rfl, rfl⟩
  decide

/-- C7 (amended): the adapter extracts text from a direct text-bearing result
or from the first element of a list result; a RAISED transport error yields
the fixed apology with no session mutation; but a non-raising response
without extractable text is a separate case: it yields the fixed
unexpected-format message and the turn is recorded (history gains the user
message and the format-error text, `request_count` is incremented). -/
theorem response_normalization (s : Session) (current_date : Nat)
    (user_message : String) (resp : GeminiResponse)
    (hd : s.last_request_date = current_date)
    (hq : s.request_count < MAX_GEMINI_REQUESTS_PER_DAY) :
    (∀ t, extractText (.obj (.withText t)) = some t) ∧
    (∀ t rest, extractText (.listOf (.withText t :: rest)) = some t) ∧
    (handle_message (some s) current_date user_message .error =
      { session := s, reply := GEMINI_ERROR_MESSAGE, ai_called := true,
        did_reset := false,
        ai_context := some (build_context s.history MAX_CONTEXT_TURNS) }) ∧
    (extractText resp = none →
      handle_message (some s) current_date user_message (.ok resp) =
        { session :=
            { history :=
                s.history ++ [("user", user_message), ("model", GEMINI_FORMAT_MESSAGE)],
              request_count := s.request_count + 1,
              last_request_date := current_date },
          reply := GEMINI_FORMAT_MESSAGE, ai_called := true,
          did_reset := false,
          ai_context := some (build_context s.history MAX_CONTEXT_TURNS) }) := by
  refine ⟨fun t => rfl, fun t rest => rfl, ?_, ?_⟩
  · unfold handle_message
    simp [hd, Nat.not_le.mpr hq]
  · intro hx
    unfold handle_message
    simp [hd, Nat.not_le.mpr hq, hx]

/-- Witness for the amended C7 at a falsy Gemini response. -/
theorem response_normalization_witness :
    handle_message (some ⟨[], 0, 5⟩) 5 "m" (.ok .falsy) =
      { session := ⟨[("user", "m"), ("model", GEMINI_FORMAT_MESSAGE)], 1, 5⟩,
        reply := GEMINI_FORMAT_MESSAGE, ai_called := true, did_reset := false,
        ai_context := some (build_context [] MAX_CONTEXT_TURNS) } :=
  (response_normalization ⟨[], 0, 5⟩ 5 "m" .falsy rfl (by decide)).2.2.2 rfl

/-- Each successful same-day turn below quota adds 1 to the count and 2 to
the history, and keeps the date. -/
theorem run_success_turns_general (d : Nat) (turns : List (String × String)) :
    ∀ s : Session, s.last_request_date = d →
      s.request_count + turns.length ≤ MAX_GEMINI_REQUESTS_PER_DAY →
      (run_success_turns d turns s).request_count =
          s.request_count + turns.length ∧
      (run_success_turns d turns s).history.length =
          s.history.length + 2 * turns.length ∧
      (run_success_turns d turns s).last_request_date = d := by
  induction turns with
  | nil => intro s hd _; simp [run_success_turns, hd]
  | cons p rest ih =>
      intro s hd hq
      obtain ⟨msg, reply⟩ := p
      have hq' : s.request_count < MAX_GEMINI_REQUESTS_PER_DAY := by
        simp [List.length_cons] at hq; omega
      have hstep :
          (handle_message (some s) d msg (.ok (.obj (.withText reply)))).session =
            { history := s.history ++ [("user", msg), ("model", reply)],
              request_count := s.request_count + 1, last_request_date := d } := by
        unfold handle_message
        simp [hd, Nat.not_le.mpr hq', extractText]
      simp only [run_success_turns, hstep]
      have hrest := ih ⟨s.history ++ [("user", msg), ("model", reply)],
          s.request_count + 1, d⟩ rfl (by simp at hq ⊢; omega)
      simp at hrest
      refine ⟨?_, ?_, hrest.2.2⟩ <;> simp [List.length_cons] <;> omega

/-- C8: starting from a freshly initialized session, `N` successful same-day
AI turns with `N` below the daily limit leave `request_count = N` and exactly
`2 N` history entries. -/
theorem successful_turns_invariant (d : Nat) (turns : List (String × String))
    (h : turns.length < MAX_GEMINI_REQUESTS_PER_DAY) :
    (run_success_turns d turns (fresh_session d)).request_count =
        turns.length ∧
    (run_success_turns d turns (fresh_session d)).history.length =
        2 * turns.length := by
  have hrun := run_success_turns_general d turns (fresh_session d) rfl
    (by simp [fresh_session]; omega)
  obtain ⟨h1, h2, -⟩ := hrun
  simp [fresh_session] at h1 h2
  exact ⟨h1, h2⟩

/-- Witness for C8: two successful turns from a fresh session. -/
theorem successful_turns_invariant_witness :
    (run_success_turns 0 [("a", "b"), ("c", "e")]
        (fresh_session 0)).request_count = 2 ∧
    (run_success_turns 0 [("a", "b"), ("c", "e")]
        (fresh_session 0)).history.length = 4 :=
  successful_turns_invariant 0 [("a", "b"), ("c", "e")] (by decide)

/-- Appending one alternating history to another keeps it alternating. -/
theorem alternating_append (t : List (String × String))
    (ht : alternating t = true) (h : List (String × String)) :
    alternating h = true → alternating (h ++ t) = true := by
  induction h using twoStepInd with
  | h0 => intro _; simpa using ht
  | h1 a => intro hfalse; obtain ⟨r, x⟩ := a; simp [alternating] at hfalse
  | h2 a b l ih =>
      intro hab
      obtain ⟨r1, x1⟩ := a
      obtain ⟨r2, x2⟩ := b
      simp [alternating] at hab ⊢
      exact ⟨hab.1, ih hab.2⟩

/-- An alternating history has even length, "user" at even indices and
"model" at odd indices. -/
theorem alternating_roles (h : List (String × String)) :
    alternating h = true →
      h.length % 2 = 0 ∧ ∀ i (hi : i < h.length),
        (h.get ⟨i, hi⟩).1 = if i % 2 = 0 then "user" else "model" := by
  induction h using twoStepInd with
  | h0 =>
      intro _
      refine ⟨rfl, fun i hi => absurd hi (by simp)⟩
  | h1 a => intro hfalse; obtain ⟨r, x⟩ := a; simp [alternating] at hfalse
  | h2 a b l ih =>
      intro hab
      obtain ⟨r1, x1⟩ := a
      obtain ⟨r2, x2⟩ := b
      simp [alternating] at hab
      obtain ⟨⟨hu, hm⟩, hl⟩ := hab
      obtain ⟨ihlen, ihrole⟩ := ih hl
      refine ⟨by simp [Nat.add_mod, ihlen], ?_⟩
      intro i hi
      rcases i with _ | i
      · simpa using hu
      rcases i with _ | j
      · simpa using hm
      · have hj : j < l.length := by simp at hi; omega
        have hidx := ihrole j hj
        have hmod : (j + 1 + 1) % 2 = j % 2 := by omega
        simpa [hmod] using hidx

/-- C9: every handler step preserves the alternation invariant of the stored
history — the history is only ever set to empty or extended by a
("user", message), ("model", reply) pair — so afterwards it has even length,
role "user" at even indices and role "model" at odd indices. -/
theorem history_alternation (stored : Option Session) (d : Nat) (m : String)
    (g : GeminiOutcome)
    (hinv : ∀ s, stored = some s → alternating s.history = true) :
    alternating (handle_message stored d m g).session.history = true ∧
    (handle_message stored d m g).session.history.length % 2 = 0 ∧
    ∀ i (hi : i < (handle_message stored d m g).session.history.length),
      ((handle_message stored d m g).session.history.get ⟨i, hi⟩).1 =
        if i % 2 = 0 then "user" else "model" := by
  have halt : alternating (handle_message stored d m g).session.history = true := by
    cases stored with
    | none => rfl
    | some s =>
        have hs := hinv s rfl
        unfold handle_message
        by_cases hd : s.last_request_date ≠ d
        · simp [hd, fresh_session, alternating]
        · push_neg at hd
          by_cases hq : s.request_count ≥ MAX_GEMINI_REQUESTS_PER_DAY
          · simpa [hd, hq] using hs
          · cases g with
            | error => simpa [hd, hq] using hs
            | ok resp =>
                simp only [hd, hq]
                simp
                exact alternating_append _ (by simp [alternating]) _ hs
  exact ⟨halt, (alternating_roles _ halt).1, (alternating_roles _ halt).2⟩

/-- Witness for C9: one successful turn on an already-alternating history. -/
theorem history_alternation_witness :
    alternating (handle_message (some ⟨[("user", "a"), ("model", "b")], 1, 3⟩)
        3 "m" (.ok (.obj (.withText "r")))).session.history = true :=
  (history_alternation (some ⟨[("user", "a"), ("model", "b")], 1, 3⟩) 3 "m"
    (.ok (.obj (.withText "r"))) (fun s hs => by cases hs; decide)).1

/-! ## Signature verification (C1)

The embedded SHA-256 / HMAC / base64 pipeline is validated on published
test vectors (FIPS 180-4 "abc", RFC 4648 base64 vectors, the RFC 2104-style
HMAC-SHA256 vector), fully inside the kernel. -/

set_option maxRecDepth 40000 in
example : sha256 [97, 98, 99] =
    [186, 120, 22, 191, 143, 1, 207, 234, 65, 65, 64, 222,
     93, 174, 34, 35, 176, 3, 97, 163, 150, 23, 122, 156,
     180, 16, 255, 97, 242, 0, 21, 173] := by decide

example : base64Encode [77, 97, 110] = "TWFu" := by decide

example : base64Encode [77, 97] = "TWE=" := by decide

example : base64Encode [77] = "TQ==" := by decide

set_option maxRecDepth 200000 in
example :
    verify [107, 101, 121]
      [84, 104, 101, 32, 113, 117, 105, 99, 107, 32, 98,
       114, 111, 119, 110, 32, 102, 111, 120, 32, 106, 117,
       109, 112, 115, 32, 111, 118, 101, 114, 32, 116, 104,
       101, 32, 108, 97, 122, 121, 32, 100, 111, 103]
      "97yD9DBThCSxMpjmqm+xQ+9NWaFJRhdZl0edvC0aPNg=" = true := by decide

/-- C1: the manual check of `callback` passes exactly when the claimed
signature equals the base64-encoded HMAC-SHA256 digest of the body keyed by
the secret; in particular the correctly computed signature passes, and a
missing header or any other claimed signature leads to `abort(400)` (a
return, never an exception). -/
theorem signature_verification (secret body : List Nat) (claimed : String) :
    (verify secret body claimed = true ↔
        claimed = base64Encode (hmacSHA256 secret body)) ∧
    verify secret body (base64Encode (hmacSHA256 secret body)) = true ∧
    callback_status secret body none = 400 ∧
    callback_status secret body (some claimed) =
      (if claimed = base64Encode (hmacSHA256 secret body) then 200 else 400) := by
  have hsome : ∀ sig, callback_status secret body (some sig) =
      if verify secret body sig then 200 else 400 := fun _ => rfl
  refine ⟨?_, ?_, rfl, ?_⟩
  · unfold verify
    rw [beq_iff_eq]
    exact eq_comm
  · unfold verify
    rw [beq_iff_eq]
  · rw [hsome]
    by_cases h : claimed = base64Encode (hmacSHA256 secret body)
    · have hv : verify secret body claimed = true := by
        unfold verify
        rw [beq_iff_eq]
        exact h.symm
      rw [if_pos hv, if_pos h]
    · have hv : verify secret body claimed = false := by
        unfold verify
        rw [beq_eq_false_iff_ne]
        exact fun he => h he.symm
      rw [hv, if_neg Bool.false_ne_true, if_neg h]

end LineBot
